import Mathlib

/-!
Shallow embedding of the sensor-configuration core of the
`automode_webpage` repository: the command-frame protocol, the IMU and
accelerometer configurator state machines
(`helper_app/legacy/imu/sensor_config.py`,
`helper_app/legacy/accelerometer/accelerometer_sensor_config.py`),
the serial session manager (`helper_app/session.py`) and the command
controller (`helper_app/controller.py`).

The physical device together with the byte-level serial helper
(`sensor_comm.SensorCommunication.send_commands`) is modelled as a
stateful oracle: each call to `send_commands` hands the batch of frames
to the oracle, which answers with either a list of reply bytes or
`none` (an exception raised by the transport, e.g. `TimeoutError`).
Time-bounded polling loops (`while time.time() - start < timeout`) are
embedded with an explicit fuel argument counting the remaining poll
iterations.  `time.sleep` and `flush_input_buffer` have no observable
effect in this model and are omitted.
-/

/-- A command frame as built in the Python sources: the four-element
list `[expected_reply_length, address_byte, data_byte, 0x0D]`. -/
structure Frame where
  expect : Nat
  addr : Nat
  data : Nat
  delim : Nat
deriving Repr, DecidableEq

/-- A write frame `[0, addr, data, 0x0D]`. -/
def wFrame (addr data : Nat) : Frame := ⟨0, addr, data, 0x0D⟩

/-- A read frame `[4, addr, 0x00, 0x0D]` expecting a 4-byte reply. -/
def rFrame (addr : Nat) : Frame := ⟨4, addr, 0x00, 0x0D⟩

/-- The device-plus-transport oracle.  `send s cmds` is the outcome of
`SensorCommunication.send_commands(cmds)` against a device in state
`s`: `none` models an exception escaping `send_commands`, `some bytes`
the concatenated reply bytes. -/
structure Device (σ : Type) where
  send : σ → List Frame → Option (List Nat) × σ

/-- Mutable state of a configurator: the device oracle state plus the
accumulated `self._warnings` list. -/
structure CfgState (σ : Type) where
  dev : σ
  warnings : List String
deriving Repr, DecidableEq

/-- Configurator computations: state threading plus Python exceptions
(`Except.error ()` models an uncaught exception propagating). -/
def M (σ : Type) (α : Type) := CfgState σ → Except Unit α × CfgState σ

instance : Monad (M σ) where
  pure a := fun s => (Except.ok a, s)
  bind x f := fun s =>
    match x s with
    | (Except.ok a, s') => f a s'
    | (Except.error e, s') => (Except.error e, s')

/-- Embeds `self.comm.send_commands(cmds)`; a `none` reply from the oracle is
an exception. -/
def sendCommands (D : Device σ) (cmds : List Frame) : M σ (List Nat) :=
  fun s =>
    match D.send s.dev cmds with
    | (some r, d') => (Except.ok r, { s with dev := d' })
    | (none, d') => (Except.error (), { s with dev := d' })

/-- Embeds `self._write_commands(cmds)`: send and discard the reply bytes. -/
def writeCommands (D : Device σ) (cmds : List Frame) : M σ Unit := do
  let _ ← sendCommands D cmds
  pure ()

/-- Embeds `self._add_warning(msg)`. -/
def addWarning (msg : String) : M σ Unit :=
  fun s => (Except.ok (), { s with warnings := s.warnings ++ [msg] })

/-- Embeds `self._warnings.clear()`. -/
def clearWarnings : M σ Unit :=
  fun s => (Except.ok (), { s with warnings := [] })

/-- Embeds `collect_warnings`: return and clear the warning list. -/
def collectWarnings : M σ (List String) :=
  fun s => (Except.ok s.warnings, { s with warnings := [] })

/-- A `try: ... except: ...` block: run `x`; on an exception run the
handler `h` from the state at the point the exception escaped. -/
def tryCatch' (x : M σ α) (h : M σ α) : M σ α :=
  fun s =>
    match x s with
    | (Except.ok a, s') => (Except.ok a, s')
    | (Except.error _, s') => h s'

/-- Embeds `try: ... except: pass`-style wrapper returning an `Option`:
`none` when the body raised. -/
def tryOpt (x : M σ α) : M σ (Option α) :=
  tryCatch' (do let a ← x; pure (Option.some a)) (pure Option.none)

/-- Python `result[-k]` on a byte list (used as `result[-3]`,
`result[-2]` by the sources, always under a `len(result) >= 4` guard). -/
def negIdx (r : List Nat) (k : Nat) : Nat := r.getD (r.length - k) 0

/-- The reply-decoding step of `_read_word` (identical in the IMU and
accelerometer configurators): a reply shorter than 4 bytes is a failed
read (`None`), otherwise the value is `(result[-3] << 8) | result[-2]`. -/
def decodeReadReply (r : List Nat) : Option Nat :=
  if r.length < 4 then Option.none
  else Option.some ((negIdx r 3 <<< 8) ||| negIdx r 2)

/-- Embeds `_read_word(address, window)`: select the window, send a 4-byte
read frame, decode the reply. -/
def readWord (D : Device σ) (address window : Nat) : M σ (Option Nat) := do
  let r ← sendCommands D [wFrame 0xFE (window &&& 0xFF), rFrame (address &&& 0xFF)]
  pure (decodeReadReply r)

/-! ### Device oracle families used by the theorems -/

/-- State of the register-table oracle: the trace of write frames the
configurator has sent (window selects included), in order. -/
structure DevTrace where
  writes : List (Nat × Nat)
deriving Repr, DecidableEq

/-- The 4-byte reply `[addr, MSB, LSB, 0x0D]` for a read of `addr`
against the register table `tbl`. -/
def readReply (tbl : Nat → Nat) (addr : Nat) : List Nat :=
  [addr, (tbl addr >>> 8) &&& 0xFF, tbl addr &&& 0xFF, 0x0D]

/-- Process a batch of frames like `send_commands`: write frames reply
with no bytes and are recorded, read frames contribute their 4-byte
reply; the per-command replies are concatenated. -/
def procFrames (tbl : Nat → Nat) : List Frame → DevTrace → List Nat × DevTrace
  | [], s => ([], s)
  | f :: rest, s =>
    if f.expect = 0 then
      procFrames tbl rest ⟨s.writes ++ [(f.addr, f.data)]⟩
    else
      let (r, s') := procFrames tbl rest s
      (readReply tbl f.addr ++ r, s')

/-- A well-behaved device whose registers read as `tbl` and which
records every write frame. -/
def regDev (tbl : Nat → Nat) : Device DevTrace :=
  ⟨fun s cmds =>
    let (r, s') := procFrames tbl cmds s
    (Option.some r, s')⟩

/-- A device that answers each `send_commands` batch with the next
entry of a fixed script (`none` = exception, `some bytes` = reply). -/
def scriptDev : Device (List (Option (List Nat))) :=
  ⟨fun s _ =>
    match s with
    | [] => (Option.some [], [])
    | o :: rest => (o, rest)⟩

/-- Frame processing for `failDev`: the first `k` reads of register
`failAddr` contribute no reply bytes (a truncated reply), every other
read answers from `tbl`.  The state counts failed reads so far. -/
def failProc (failAddr k : Nat) (tbl : Nat → Nat) : List Frame → Nat → List Nat × Nat
  | [], c => ([], c)
  | f :: rest, c =>
    if f.expect = 0 then failProc failAddr k tbl rest c
    else if f.addr = failAddr ∧ c < k then failProc failAddr k tbl rest (c + 1)
    else
      let (r, c') := failProc failAddr k tbl rest c
      (readReply tbl f.addr ++ r, c')

/-- A device that fails (with a short reply) the first `k` reads of one
register and behaves like `regDev tbl` otherwise. -/
def failDev (failAddr k : Nat) (tbl : Nat → Nat) : Device Nat :=
  ⟨fun c cmds => let (r, c') := failProc failAddr k tbl cmds c; (Option.some r, c')⟩

/-- The all-zero register table: every status bit clear, auto bits
clear, flash operations complete instantly and report no error. -/
def tblZero : Nat → Nat := fun _ => 0

/-! ### IMU configurator (`helper_app/legacy/imu/sensor_config.py`) -/

namespace Imu

/-- Embeds `PROD_ID_REGISTERS` (window 1). -/
def PROD_ID_REGISTERS : List Nat := [0x6A, 0x6C, 0x6E, 0x70]

/-- Embeds `SERIAL_REGISTERS` (window 1). -/
def SERIAL_REGISTERS : List Nat := [0x74, 0x76, 0x78, 0x7A]

/-- Embeds `PRODUCT_ID_ALIASES.get(product_id, product_id)`. -/
def productIdAlias (raw : String) : String :=
  if raw = "G365PDF1" then "M-G552PR80" else raw

/-- Embeds `SAMPLING_RATE_CONFIG`: sampling rate (Sps) to
`(dout_rate_value, min_tap_value)`.  Python float keys are embedded as
exact rationals. -/
def SAMPLING_RATE_CONFIG : List (ℚ × Nat × Nat) :=
  [(2000, 0x00, 0), (1000, 0x01, 2), (500, 0x02, 4), (400, 0x08, 8),
   (250, 0x03, 8), (200, 0x09, 16), (125, 0x04, 16), (100, 0x0A, 32),
   (80, 0x0B, 32), (62.5, 0x05, 32), (50, 0x0C, 64), (40, 0x0D, 64),
   (31.25, 0x06, 64), (25, 0x0E, 128), (20, 0x0F, 128), (15.625, 0x07, 128)]

/-- Embeds `SAMPLING_RATE_CONFIG[sampling_rate]`, `None` when unsupported. -/
def samplingRateLookup (rate : ℚ) : Option (Nat × Nat) :=
  (SAMPLING_RATE_CONFIG.find? (fun e => e.1 = rate)).map (fun e => e.2)

/-- The `supported_taps` list of `configure_registers`. -/
def SUPPORTED_TAPS : List Nat := [0, 2, 4, 8, 16, 32, 64, 128]

/-- Embeds `min(supported_taps, key=lambda x: abs(x - tap_value))`: the first
supported tap at minimal absolute distance. -/
def closestTap (tap : Nat) : Nat :=
  match SUPPORTED_TAPS with
  | [] => 0
  | t :: ts =>
    ts.foldl (fun (best c : Nat) =>
      if ((c : Int) - (tap : Int)).natAbs < ((best : Int) - (tap : Int)).natAbs
      then c else best) t

/-- Embeds `_wait_until_ready`: poll GLOB_CMD (window 1, address 0x0A) until
the NOT_READY bit 0x0400 clears; `fuel` counts remaining iterations of
the timed loop. -/
def waitUntilReady (D : Device σ) : Nat → M σ Bool
  | 0 => pure false
  | fuel + 1 => do
    let res ← tryOpt (sendCommands D [wFrame 0xFE 0x01, rFrame 0x0A])
    match res with
    | Option.some r =>
      if 4 ≤ r.length ∧ (((negIdx r 3 <<< 8) ||| negIdx r 2) &&& 0x0400) = 0 then
        pure true
      else waitUntilReady D fuel
    | Option.none => waitUntilReady D fuel

/-- Embeds `reset_sensor`: three `0xFF` frames, then the ready wait (result
discarded). -/
def resetSensor (D : Device σ) (fuel : Nat) : M σ Unit := do
  writeCommands D [⟨0, 0xFF, 0xFF, 0x0D⟩, ⟨0, 0xFF, 0xFF, 0x0D⟩, ⟨0, 0xFF, 0xFF, 0x0D⟩]
  let _ ← waitUntilReady D fuel
  pure ()

/-- Embeds `_enter_configuration_mode`. -/
def enterConfigurationMode (D : Device σ) (fuel : Nat) : M σ Unit := do
  writeCommands D [wFrame 0xFE 0x00, wFrame 0x83 0x02]
  writeCommands D [wFrame 0xFE 0x01, wFrame 0x88 0x00]
  let _ ← waitUntilReady D fuel
  pure ()

/-- Embeds `_decode_ascii_words(words, little_endian=True)`: per word emit the
low then the high byte, skipping NUL bytes, then strip whitespace. -/
def decodeAsciiWords (words : List Nat) : String :=
  (String.mk (words.foldr (fun w acc =>
    (if w &&& 0xFF ≠ 0 then [Char.ofNat (w &&& 0xFF)] else []) ++
    (if (w >>> 8) &&& 0xFF ≠ 0 then [Char.ofNat ((w >>> 8) &&& 0xFF)] else []) ++
    acc) [])).trim

/-- The poll loop of `flash_backup` step (b): read GLOB_CMD until the
FLASH_BACKUP bit (`result[2] & 0b1000`) clears; `false` = timeout. -/
def flashPoll (D : Device σ) : Nat → M σ Bool
  | 0 => pure false
  | fuel + 1 => do
    let r ← sendCommands D [wFrame 0xFE 0x01, rFrame 0x0A]
    if 4 ≤ r.length ∧ (r.getD 2 0 &&& 0b1000) = 0 then pure true
    else flashPoll D fuel

/-- Embeds `flash_backup`: issue FLASH_BACKUP, poll for completion, then check
FLASH_BU_ERR (DIAG_STAT bit 0); `false` on timeout, error bit or
exception. -/
def flashBackup (D : Device σ) (fuel : Nat) : M σ Bool :=
  tryCatch'
    (do
      writeCommands D [wFrame 0xFE 0x01, wFrame 0x8A 0x08]
      let cleared ← flashPoll D fuel
      if !cleared then pure false
      else do
        let r ← sendCommands D [wFrame 0xFE 0x00, rFrame 0x04]
        if 4 ≤ r.length then
          if (r.getD 2 0 &&& 0b1) = 0 then pure true else pure false
        else pure false)
    (pure false)

/-- The priority-ordered decision block of `check_auto_mode`, over the
counts `auto_mode_reads` (valid reads with the AUTO bit set),
`valid_reads` (valid reads with the AUTO bit clear) and
`streaming_detected`. -/
def autoDecision (autoReads validReads streaming : Nat) : Bool :=
  if 2 ≤ autoReads then true
  else if 2 ≤ validReads then false
  else if 1 ≤ autoReads ∧ 2 ≤ streaming then true
  else if 3 ≤ streaming ∧ validReads = 0 then true
  else if 1 ≤ validReads ∧ streaming = 0 then false
  else if 1 ≤ autoReads then true
  else if 1 ≤ validReads then false
  else if 1 ≤ streaming then true
  else false

/-- The attempt loop of `check_auto_mode` (`for attempt in range(5)`):
each attempt reads MODE_CTRL (window 0, address 0x02) and classifies
the outcome; an exception is only counted as streaming on the final
attempt (`attempt == 4`). -/
def checkLoop (D : Device σ) : List Nat → Nat → Nat → Nat → M σ Bool
  | [], a, v, st => pure (autoDecision a v st)
  | attempt :: rest, a, v, st => do
    let res ← tryOpt (sendCommands D [wFrame 0xFE 0x00, rFrame 0x02])
    match res with
    | Option.some r =>
      if r.length = 4 then
        if (((negIdx r 3 <<< 8) ||| negIdx r 2) &&& 0x0400) ≠ 0 then
          checkLoop D rest (a + 1) v st
        else checkLoop D rest a (v + 1) st
      else if 4 < r.length then checkLoop D rest a v (st + 1)
      else checkLoop D rest a v st
    | Option.none =>
      if attempt < 4 then checkLoop D rest a v st
      else checkLoop D rest a v (st + 1)

/-- Embeds `check_auto_mode`: five classified read attempts followed by the
priority vote; any exception escaping the whole block yields `true`. -/
def checkAutoMode (D : Device σ) : M σ Bool :=
  tryCatch' (checkLoop D [0, 1, 2, 3, 4] 0 0 0) (pure true)

/-- The per-group register loop of `detect_identity`: a failed word
read is retried once (after re-entering configuration mode) only when
the group accumulator is non-empty (`if word is None and
product_words:`); a failure after that aborts with `None`. -/
def readIdWords (D : Device σ) (fuel : Nat) : List Nat → List Nat → M σ (Option (List Nat))
  | [], acc => pure (Option.some acc)
  | reg :: rest, acc => do
    let w0 ← readWord D reg 0x01
    let w ← (match w0 with
      | Option.none =>
        if acc ≠ [] then do
          enterConfigurationMode D fuel
          readWord D reg 0x01
        else pure Option.none
      | Option.some v => pure (Option.some v))
    match w with
    | Option.none => pure Option.none
    | Option.some v => readIdWords D fuel rest (acc ++ [v])

end Imu

/-- The identity dictionary returned by `detect_identity`. -/
structure Identity where
  productId : String
  productIdRaw : String
  serialNumber : String
  productWords : List Nat
  serialWords : List Nat
deriving Repr, DecidableEq

namespace Imu

/-- Embeds `detect_identity`: reset, enter configuration mode, read the four
product-id words then the four serial words (with the group retry
policy of `readIdWords`), decode, apply the alias table, return to
window 0. -/
def detectIdentity (D : Device σ) (fuel : Nat) : M σ (Option Identity) := do
  resetSensor D fuel
  enterConfigurationMode D fuel
  let pw ← readIdWords D fuel PROD_ID_REGISTERS []
  match pw with
  | Option.none => pure Option.none
  | Option.some productWords => do
    let productId := decodeAsciiWords productWords
    let friendly := productIdAlias productId
    let sw ← readIdWords D fuel SERIAL_REGISTERS []
    match sw with
    | Option.none => pure Option.none
    | Option.some serialWords => do
      let serialNumber := decodeAsciiWords serialWords
      writeCommands D [wFrame 0xFE 0x00]
      pure (Option.some ⟨friendly, productId, serialNumber, productWords, serialWords⟩)

/-- The `register_writes` list of `configure_registers` for a resolved
DOUT_RATE byte and TAP byte. -/
def registerWrites (doutRate tap : Nat) : List Frame :=
  [wFrame 0xFE 0x01, wFrame 0x85 doutRate, wFrame 0x86 tap, wFrame 0x88 0x03,
   wFrame 0x8C 0x02, wFrame 0x8D 0xF0, wFrame 0x8F 0x70]

/-- The TAP value `configure_registers` resolves from the requested
`tap_value` and the table minimum: `None` means the minimum, a
sub-minimum request is raised to the minimum, a non-standard value is
snapped to the closest supported tap. -/
def resolveTap (minTap : Nat) (tapValue : Option Nat) : Nat :=
  let t1 := match tapValue with
    | Option.none => minTap
    | Option.some t => if t < minTap then minTap else t
  if t1 ∈ SUPPORTED_TAPS then t1 else closestTap t1

/-- Embeds `configure_registers(sampling_rate, tap_value)`: an unsupported
rate is a hard failure; otherwise resolve the TAP value and program the
seven register-write frames. -/
def configureRegisters (D : Device σ) (samplingRate : ℚ) (tapValue : Option Nat) : M σ Bool :=
  tryCatch'
    (do
      match samplingRateLookup samplingRate with
      | Option.none => pure false
      | Option.some (doutRate, minTap) => do
        writeCommands D (registerWrites doutRate (resolveTap minTap tapValue))
        pure true)
    (pure false)

/-- Embeds `exit_auto_mode(persist_disable_auto)`: command configuration mode,
read MODE_CTRL (logging only, warn on a short reply), write `0x00` to
UART_CTRL low byte (address `0x88`), optionally flash-backup (failure
is a warning only), re-read MODE_CTRL for logging, return to window 0,
and report `True`; only an escaping exception yields `False`. -/
def exitAutoMode (D : Device σ) (fuel : Nat) (persistDisableAuto : Bool) : M σ Bool := do
  clearWarnings
  tryCatch'
    (do
      writeCommands D [wFrame 0xFE 0x00, wFrame 0x83 0x02]
      let r ← sendCommands D [wFrame 0xFE 0x00, rFrame 0x02]
      if r.length < 4 then
        addWarning "MODE_CTRL read response incomplete while verifying configuration mode."
      else pure ()
      writeCommands D [wFrame 0xFE 0x01, wFrame 0x88 0x00]
      if persistDisableAuto then do
        let fb ← flashBackup D fuel
        if !fb then
          addWarning "Flash backup confirmation failed while disabling auto mode. Verify persistence after power cycle."
        else pure ()
      else pure ()
      let _ ← tryOpt (sendCommands D [wFrame 0xFE 0x00, rFrame 0x02])
      writeCommands D [wFrame 0xFE 0x00]
      pure true)
    (pure false)

/-- Embeds `configure(sampling_rate, tap_value)`: reset, program the
registers (hard failure on an unsupported rate), then flash-backup —
a backup failure is downgraded to a warning and the method still
returns `True`. -/
def configure (D : Device σ) (fuel : Nat) (samplingRate : ℚ) (tapValue : Option Nat) : M σ Bool := do
  clearWarnings
  tryCatch'
    (do
      resetSensor D fuel
      let ok ← configureRegisters D samplingRate tapValue
      if !ok then pure false
      else do
        let fb ← flashBackup D fuel
        if !fb then
          addWarning "Flash backup failed during configuration. Auto Start is enabled for this session, but the setting may not persist after power cycle."
        else pure ()
        pure true)
    (pure false)

end Imu

/-! ### Accelerometer configurator
(`helper_app/legacy/accelerometer/accelerometer_sensor_config.py`) -/

namespace Accel

/-- Embeds `SPS_TO_SMPL_CTRL_H`. -/
def spsToSmplCtrlH (sps : Nat) : Option Nat :=
  if sps = 100 then Option.some 0x05
  else if sps = 200 then Option.some 0x04
  else if sps = 500 then Option.some 0x03
  else if sps = 1000 then Option.some 0x02
  else Option.none

/-- Embeds `SPS_TO_FILTER_CUTOFF`. -/
def spsToFilterCutoff (sps : Nat) : Option Nat :=
  if sps = 100 then Option.some 16
  else if sps = 200 then Option.some 60
  else if sps = 500 then Option.some 60
  else if sps = 1000 then Option.some 210
  else Option.none

/-- Embeds `FILTER_CUTOFF_512TAPS`. -/
def filterCutoff512Taps (hz : Nat) : Option Nat :=
  if hz = 9 then Option.some 0x0006
  else if hz = 16 then Option.some 0x0007
  else if hz = 60 then Option.some 0x0008
  else if hz = 210 then Option.some 0x0009
  else if hz = 460 then Option.some 0x000A
  else Option.none

/-- Embeds `PRODUCT_ID_ALIASES.get(product_id_raw, product_id_raw)`. -/
def productIdAlias (raw : String) : String :=
  if raw = "A352AD10" then "M-A552AR1" else raw

/-- Embeds `reset_sensor`: command configuration mode in window 0, then clear
UART_CTRL low byte in window 1 (flushes and sleeps are unobservable
here). -/
def resetSensor (D : Device σ) : M σ Unit := do
  writeCommands D [wFrame 0xFE 0x00, wFrame 0x83 0x02]
  writeCommands D [wFrame 0xFE 0x01, wFrame 0x88 0x00]

/-- Embeds `_wait_for_filter_settle`: poll FILTER_CTRL (window 1, address
0x06) until bit 5 of the low byte clears; `false` = timeout. -/
def waitFilterSettle (D : Device σ) : Nat → M σ Bool
  | 0 => pure false
  | fuel + 1 => do
    let res ← tryOpt (sendCommands D [wFrame 0xFE 0x01, rFrame 0x06])
    match res with
    | Option.some r =>
      if 4 ≤ r.length ∧ ((negIdx r 2 >>> 5) &&& 0x01) = 0 then pure true
      else waitFilterSettle D fuel
    | Option.none => waitFilterSettle D fuel

/-- Embeds `set_output_rate(sps_rate)`: reject unsupported rates, else write
the SMPL_CTRL high byte at address 0x85. -/
def setOutputRate (D : Device σ) (spsRate : Nat) : M σ Bool :=
  tryCatch'
    (do
      match spsToSmplCtrlH spsRate with
      | Option.none => pure false
      | Option.some smplCtrlH => do
        writeCommands D [wFrame 0xFE 0x01, wFrame 0x85 smplCtrlH]
        pure true)
    (pure false)

/-- Embeds `set_filter(sps_rate)`: resolve the cutoff and selector, write
FILTER_CTRL low byte at address 0x86, then wait for the filter to
settle (`false` on timeout). -/
def setFilter (D : Device σ) (fuel : Nat) (spsRate : Nat) : M σ Bool :=
  tryCatch'
    (do
      match spsToFilterCutoff spsRate with
      | Option.none => pure false
      | Option.some cutoffHz =>
        match filterCutoff512Taps cutoffHz with
        | Option.none => pure false
        | Option.some filterSel => do
          writeCommands D [wFrame 0xFE 0x01, wFrame 0x86 (filterSel &&& 0xFF)]
          let settled ← waitFilterSettle D fuel
          if !settled then pure false else pure true)
    (pure false)

/-- Embeds `set_fixed_configuration`: UART_CTRL low byte `0x03`, BURST_CTRL
low `0x02`, BURST_CTRL high `0x47`. -/
def setFixedConfiguration (D : Device σ) : M σ Bool :=
  tryCatch'
    (do
      writeCommands D
        [wFrame 0xFE 0x01, wFrame 0x88 0x03, wFrame 0x8C 0x02, wFrame 0x8D 0x47]
      pure true)
    (pure false)

/-- The poll loop of the accelerometer `flash_backup` (step 2): read
GLOB_CMD until bit 3 of `result[-2]` clears; `false` = timeout. -/
def flashPoll (D : Device σ) : Nat → M σ Bool
  | 0 => pure false
  | fuel + 1 => do
    let r ← sendCommands D [wFrame 0xFE 0x01, rFrame 0x0A]
    if 4 ≤ r.length ∧ ((negIdx r 2 >>> 3) &&& 0x01) = 0 then pure true
    else flashPoll D fuel

/-- Embeds `flash_backup`: issue FLASH_BACKUP, poll for the bit to clear,
then require FLASH_BU_ERR (DIAG_STAT bit 0) to be clear. -/
def flashBackup (D : Device σ) (fuel : Nat) : M σ Bool :=
  tryCatch'
    (do
      writeCommands D [wFrame 0xFE 0x01, wFrame 0x8A 0x08]
      let cleared ← flashPoll D fuel
      if !cleared then pure false
      else do
        let r ← sendCommands D [wFrame 0xFE 0x00, rFrame 0x04]
        if 4 ≤ r.length then
          if (negIdx r 2 &&& 0x01) = 0 then pure true else pure false
        else pure false)
    (pure false)

/-- Embeds `configure(sps_rate)`: reset, fixed configuration, output rate,
filter (timeout tolerated with a log only), then flash backup — a
backup failure fails the whole configuration. -/
def configure (D : Device σ) (fuel : Nat) (spsRate : Nat) : M σ Bool :=
  tryCatch'
    (do
      resetSensor D
      let ok1 ← setFixedConfiguration D
      if !ok1 then pure false
      else do
        let ok2 ← setOutputRate D spsRate
        if !ok2 then pure false
        else do
          let _ ← setFilter D fuel spsRate
          let fb ← flashBackup D fuel
          if !fb then pure false
          else pure true)
    (pure false)

/-- Embeds `exit_auto_mode(persist_disable_auto)`: reset, check MODE_CTRL
(logging only), read UART_CTRL (hard failure on a short reply), write
back the low byte with bits 1:0 cleared, re-read and verify the two
bits are clear (hard failure otherwise), optionally flash-backup (hard
failure) with a final verification re-read. -/
def exitAutoMode (D : Device σ) (fuel : Nat) (persistDisableAuto : Bool) : M σ Bool :=
  tryCatch'
    (do
      resetSensor D
      let _ ← sendCommands D [wFrame 0xFE 0x00, rFrame 0x02]
      let r ← sendCommands D [wFrame 0xFE 0x01, rFrame 0x08]
      if r.length < 4 then pure false
      else do
        let uartCtrlLow := negIdx r 2
        let newUartCtrlLow := uartCtrlLow &&& 0xFC
        writeCommands D [wFrame 0xFE 0x01, wFrame 0x88 newUartCtrlLow]
        let vr ← sendCommands D [wFrame 0xFE 0x01, rFrame 0x08]
        if 4 ≤ vr.length then
          if negIdx vr 2 &&& 0x03 ≠ 0 then pure false
          else
            if persistDisableAuto then do
              let fb ← flashBackup D fuel
              if !fb then pure false
              else do
                let fv ← sendCommands D [wFrame 0xFE 0x01, rFrame 0x08]
                if 4 ≤ fv.length then
                  if negIdx fv 2 &&& 0x03 = 0 then pure true else pure false
                else pure true
            else pure true
        else pure false)
    (pure false)

end Accel

namespace Accel

/-- Embeds `_enter_configuration_mode` (accelerometer): just a reset. -/
def enterConfigurationMode (D : Device σ) : M σ Unit :=
  resetSensor D

/-- Drop leading and trailing NUL characters (`str.strip("\x00")`). -/
def stripNul (cs : List Char) : List Char :=
  ((cs.dropWhile (fun c => c = Char.ofNat 0)).reverse.dropWhile
    (fun c => c = Char.ofNat 0)).reverse

/-- Embeds `_decode_ascii_words(words, little_endian=True)`: per word emit the
low then the high byte (NULs included), then strip NULs at both ends. -/
def decodeAsciiWords (words : List Nat) : String :=
  String.mk (stripNul (words.foldr (fun w acc =>
    Char.ofNat (w &&& 0xFF) :: Char.ofNat ((w >>> 8) &&& 0xFF) :: acc) []))

/-- The per-group register loop of the accelerometer `detect_identity`:
every failed word read — the first of the group included — is retried
exactly once after re-entering configuration mode. -/
def readIdWords (D : Device σ) : List Nat → List Nat → M σ (Option (List Nat))
  | [], acc => pure (Option.some acc)
  | reg :: rest, acc => do
    let w0 ← readWord D reg 0x01
    let w ← (match w0 with
      | Option.none => do
        enterConfigurationMode D
        readWord D reg 0x01
      | Option.some v => pure (Option.some v))
    match w with
    | Option.none => pure Option.none
    | Option.some v => readIdWords D rest (acc ++ [v])

/-- Embeds `detect_identity` (accelerometer). -/
def detectIdentity (D : Device σ) : M σ (Option Identity) := do
  resetSensor D
  enterConfigurationMode D
  let pw ← readIdWords D Imu.PROD_ID_REGISTERS []
  match pw with
  | Option.none => pure Option.none
  | Option.some productWords => do
    let productIdRaw := decodeAsciiWords productWords
    let productId := productIdAlias productIdRaw
    let sw ← readIdWords D Imu.SERIAL_REGISTERS []
    match sw with
    | Option.none => pure Option.none
    | Option.some serialWords => do
      let serialNumber := decodeAsciiWords serialWords
      writeCommands D [wFrame 0xFE 0x00]
      pure (Option.some ⟨productId, productIdRaw, serialNumber, productWords, serialWords⟩)

/-- Embeds `check_auto_mode` (accelerometer): one read of UART_CTRL; with a
reply of at least 4 bytes the answer is whether UART_AUTO and
AUTO_START are both set; a short reply or an exception yields `true`
(assume auto mode). -/
def checkAutoMode (D : Device σ) : M σ Bool :=
  tryCatch'
    (do
      let res ← tryOpt (sendCommands D [wFrame 0xFE 0x01, rFrame 0x08])
      match res with
      | Option.some r =>
        if 4 ≤ r.length then
          let low := negIdx r 2
          if (low &&& 0x01) = 1 ∧ ((low >>> 1) &&& 0x01) = 1 then pure true
          else pure false
        else pure true
      | Option.none => pure true)
    (pure true)

end Accel

/-! ### Serial session manager (`helper_app/session.py`) -/

/-- The Link transport object (`SensorCommunication`): port, baud and
open/closed state. -/
structure LinkComm where
  port : String
  baud : Nat
  isOpen : Bool
deriving Repr, DecidableEq

/-- Embeds `SerialSession` state: last requested port/baud, the current Link
(if any) and whether the background drain thread is alive. -/
structure SessionState where
  port : Option String
  baud : Nat
  comm : Option LinkComm
  drainAlive : Bool
deriving Repr, DecidableEq

/-- Observable actions of the session manager, in program order. -/
inductive SEvent where
  | drainStop
  | drainStart
  | flushBuf
  | openLink
  | closeLink
  | execOp
deriving Repr, DecidableEq

/-- Exceptions escaping `connect`/`run`. -/
inductive SErr where
  | notConnected
  | openFailed
  | opFailed
deriving Repr, DecidableEq

/-- Embeds `self._comm and self._comm.is_open()`. -/
def commOpen (st : SessionState) : Bool :=
  match st.comm with
  | Option.some c => c.isOpen
  | Option.none => false

/-- Embeds `_start_drain_locked`: start the drain thread only when the Link is
open and no drain thread is alive. -/
def startDrainLocked (st : SessionState) : SessionState × List SEvent :=
  if commOpen st ∧ st.drainAlive = false then
    ({ st with drainAlive := true }, [SEvent.drainStart])
  else (st, [])

/-- Embeds `_stop_drain_locked`: signal and join the drain thread when alive;
afterwards no drain thread exists. -/
def stopDrainLocked (st : SessionState) : SessionState × List SEvent :=
  if st.drainAlive then ({ st with drainAlive := false }, [SEvent.drainStop])
  else (st, [])

/-- Embeds `_close_locked`: stop the drain loop and close the Link, if any. -/
def closeLocked (st : SessionState) : SessionState × List SEvent :=
  match st.comm with
  | Option.some _ =>
    let (st1, ev1) := stopDrainLocked st
    ({ st1 with comm := Option.none }, ev1 ++ [SEvent.closeLink])
  | Option.none => ({ st with comm := Option.none }, [])

/-- Embeds `target_baud = baud or self._settings.default_baud_rate`: Python's
`or` also maps a baud of `0` to the default. -/
def targetBaud (defaultBaud : Nat) (baud : Option Nat) : Nat :=
  match baud with
  | Option.none => defaultBaud
  | Option.some b => if b = 0 then defaultBaud else b

/-- Embeds `connect(port, baud)`.  `openOk` models whether opening the OS
port succeeds; `defaultBaud` is `settings.default_baud_rate`.  If an
open Link to the same port and baud exists the call returns
immediately; otherwise any existing Link is closed first, then a fresh
Link is created and opened and the drain loop started. -/
def connectSession (openOk : Bool) (defaultBaud : Nat) (st : SessionState)
    (port : String) (baud : Option Nat) : Except SErr Unit × SessionState × List SEvent :=
  if commOpen st ∧ st.port = Option.some port ∧ st.baud = targetBaud defaultBaud baud then
    (Except.ok (), st, [])
  else
    let (st1, ev1) := closeLocked st
    let st2 := { st1 with
      port := Option.some port, baud := targetBaud defaultBaud baud,
      comm := Option.some ⟨port, targetBaud defaultBaud baud, openOk⟩ }
    if openOk then
      let (st3, ev3) := startDrainLocked st2
      (Except.ok (), st3, ev1 ++ [SEvent.openLink] ++ ev3)
    else (Except.error SErr.openFailed, st2, ev1 ++ [SEvent.openLink])

/-- Embeds `run(func)`.  The wrapped operation is abstracted by its outcome
`opResult` (`Except.error ()` = the operation raised).  Reconnects when
disconnected but a port is known, raises when no port is known, stops
the drain loop and flushes before executing, and restarts the drain
loop in a `finally` block on both exit paths. -/
def runSession (openOk : Bool) (opResult : Except Unit α) (st : SessionState) :
    Except SErr α × SessionState × List SEvent :=
  let reconnect : Except SErr Unit × SessionState × List SEvent :=
    if commOpen st then (Except.ok (), st, [])
    else
      match st.port with
      | Option.none => (Except.error SErr.notConnected, st, [])
      | Option.some p =>
        let st1 := { st with comm := Option.some ⟨p, st.baud, openOk⟩ }
        if openOk then
          let (st2, ev2) := startDrainLocked st1
          (Except.ok (), st2, [SEvent.openLink] ++ ev2)
        else (Except.error SErr.openFailed, st1, [SEvent.openLink])
  match reconnect with
  | (Except.error e, st', ev) => (Except.error e, st', ev)
  | (Except.ok _, st1, ev1) =>
    let (st2, ev2) := stopDrainLocked st1
    let evFlush := if commOpen st2 then [SEvent.flushBuf] else []
    let (st3, ev3) := startDrainLocked st2
    match opResult with
    | Except.ok a =>
      (Except.ok a, st3, ev1 ++ ev2 ++ evFlush ++ [SEvent.execOp] ++ ev3)
    | Except.error _ =>
      (Except.error SErr.opFailed, st3, ev1 ++ ev2 ++ evFlush ++ [SEvent.execOp] ++ ev3)

/-! ### Command controller (`helper_app/controller.py`) -/

/-- Embeds `CommandResult`. -/
structure CommandResult where
  success : Bool
  message : String
  requiresRestart : Bool
  warning : Option String
deriving Repr, DecidableEq

/-- Embeds `_collect_warning`: deduplicate the collected warnings and join
them with spaces; `None` when there are none. -/
def collectWarning (warnings : List String) : Option String :=
  let unique := warnings.foldl (fun acc w => if w ∈ acc then acc else acc ++ [w]) []
  if unique = [] then Option.none
  else Option.some (" ".intercalate unique)

/-- The result mapping of `SensorController.configure`'s `_run`: a
failed configurator run is a failure result, a successful one carries
`requires_restart=True`. -/
def controllerConfigureResult (success : Bool) (warning : Option String) : CommandResult :=
  if success = false then
    ⟨false, "Configuration failed. Check logs for details.", false, warning⟩
  else ⟨true, "Configuration completed successfully.", true, warning⟩

/-- The result mapping of `SensorController.exit_auto`'s `_run`. -/
def controllerExitAutoResult (success : Bool) (warning : Option String) : CommandResult :=
  if success = false then
    ⟨false, "Failed to disable auto mode.", false, warning⟩
  else ⟨true, "Auto mode disabled successfully.", false, warning⟩

/-- Embeds `SensorController.configure` for the IMU profile, inside one `run`
of the session: run the configurator, collect its warnings, build the
`CommandResult`. -/
def imuControllerConfigure (D : Device σ) (fuel : Nat) (samplingRate : ℚ)
    (tapValue : Option Nat) : M σ CommandResult := do
  let success ← Imu.configure D fuel samplingRate tapValue
  let ws ← collectWarnings
  pure (controllerConfigureResult success (collectWarning ws))

/-- Embeds `SensorController.exit_auto` for the IMU profile, inside one `run`
of the session. -/
def imuControllerExitAuto (D : Device σ) (fuel : Nat) (persist : Bool) :
    M σ CommandResult := do
  let success ← Imu.exitAutoMode D fuel persist
  let ws ← collectWarnings
  pure (controllerExitAutoResult success (collectWarning ws))

/-! ### Concrete states and device tables used by the theorems -/

/-- Initial configurator state over the write-trace oracle. -/
def cfg0 : CfgState DevTrace := ⟨⟨[]⟩, []⟩

/-- Register table of a device whose flash backup always fails:
DIAG_STAT (address 0x04) reports FLASH_BU_ERR = 1, everything else
reads zero. -/
def tblBad : Nat → Nat := fun a => if a = 0x04 then 1 else 0

/-- Register table of a device whose UART_CTRL (address 0x08) reads as
the constant `v` and every other register reads zero. -/
def tblUart (v : Nat) : Nat → Nat := fun a => if a = 0x08 then v else 0

/-- A 5-byte reply (telemetry bytes mixed into a register reply). -/
def longReply : Option (List Nat) := Option.some [0x80, 0x01, 0x02, 0x03, 0x0D]

/-- A truncated 1-byte reply. -/
def shortReply : Option (List Nat) := Option.some [0x02]

/-- Script for `check_auto_mode`: three streaming-noise reads (too
long) followed by two too-short reads — no valid read at all. -/
def noiseScript : CfgState (List (Option (List Nat))) :=
  ⟨[longReply, longReply, longReply, shortReply, shortReply], []⟩

/-- Initial configurator state over the read-failure oracle. -/
def cfgF : CfgState Nat := ⟨0, []⟩

/-- The `check_auto_mode` decision policy as the specification states
it, for comparison with the code's `Imu.autoDecision` (this definition
follows the spec's words, not the source). -/
def specAutoPolicy (validAuto validNotAuto noise : Nat) : Bool :=
  if 2 ≤ validAuto then true
  else if 2 ≤ validNotAuto then false
  else if validAuto = 1 ∧ 2 ≤ noise then true
  else if 3 ≤ noise ∧ validAuto = 0 ∧ validNotAuto = 0 then true
  else if validNotAuto = 1 ∧ noise = 0 then false
  else if 1 ≤ validAuto then true
  else if 1 ≤ validNotAuto then false
  else if 1 ≤ noise then true
  else false

/-! ### Claim theorems -/

/-- C6: decoding a synthetic 4-byte register-read reply
`[A, MSB, LSB, 0x0D]` (the decode step shared by the IMU and
accelerometer `_read_word`) yields exactly `(MSB <<< 8) ||| LSB`, for
all byte values in range. -/
theorem readWord_decodes_synthetic_reply (A msb lsb : Nat)
    (_hm : msb < 256) (_hl : lsb < 256) :
    decodeReadReply [A, msb, lsb, 0x0D] = Option.some ((msb <<< 8) ||| lsb) := rfl

/-- Witness for C6 at `A = 0x02`, `MSB = 0xAB`, `LSB = 0xCD`. -/
theorem readWord_decodes_synthetic_reply_witness :
    decodeReadReply [0x02, 0xAB, 0xCD, 0x0D] = Option.some 0xABCD :=
  readWord_decodes_synthetic_reply 0x02 0xAB 0xCD (by decide) (by decide)

/-- C3 helper: the code's decision block agrees with the spec's
priority policy on every count triple reachable from at most 5
attempts. -/
theorem autoDecision_matches_policy_bounded :
    ∀ a < 6, ∀ n < 6, ∀ s < 6, a + n + s ≤ 5 →
      Imu.autoDecision a n s = specAutoPolicy a n s := by decide

/-- C3: for every classification outcome of the up-to-5 read attempts
(counts of valid-auto, valid-not-auto and streaming-noise reads), the
`check_auto_mode` decision follows the spec's priority-ordered policy;
in particular a run with 3 streaming-noise reads and no valid read
returns `true`. -/
theorem checkAutoMode_policy :
    (∀ a n s : Nat, a + n + s ≤ 5 →
      Imu.autoDecision a n s = specAutoPolicy a n s) ∧
    (Imu.checkAutoMode scriptDev noiseScript).1 = Except.ok true := by
  constructor
  · intro a n s h
    exact autoDecision_matches_policy_bounded a (by omega) n (by omega) s (by omega) h
  · rfl

/-- Witness for C3 at counts `(0, 0, 3)`. -/
theorem checkAutoMode_policy_witness :
    Imu.autoDecision 0 0 3 = specAutoPolicy 0 0 3 :=
  checkAutoMode_policy.1 0 0 3 (by decide)

/-- C5: for the IMU profile, `configure(sampling_rate=125,
tap_value=None)` against a well-behaved device writes exactly the
DOUT_RATE byte `0x04` to write address `0x85`, the TAP byte `16` to
write address `0x86`, and the UART_CTRL byte `0x03` to write address
`0x88`; the run succeeds and the controller's `CommandResult` carries
`requires_restart = true`. -/
theorem imu_configure_125_writes :
    ((Imu.configure (regDev tblZero) 3 125 Option.none cfg0).2.dev.writes.filter
        (fun p => p.1 = 0x85 ∨ p.1 = 0x86 ∨ p.1 = 0x88)) =
      [(0x85, 0x04), (0x86, 16), (0x88, 0x03)] ∧
    (Imu.configure (regDev tblZero) 3 125 Option.none cfg0).1 = Except.ok true ∧
    (imuControllerConfigure (regDev tblZero) 3 125 Option.none cfg0).1 =
      Except.ok ⟨true, "Configuration completed successfully.", true, Option.none⟩ := by
  refine ⟨?_, rfl, rfl⟩
  rfl

/-- State after a first IMU `exit_auto_mode(persist_disable_auto=True)`
run against an already-non-auto device (all registers read zero, flash
backup succeeds). -/
def imuExitFirst : Except Unit Bool × CfgState DevTrace :=
  Imu.exitAutoMode (regDev tblZero) 3 true cfg0

/-- State after a first accelerometer
`exit_auto_mode(persist_disable_auto=True)` run against an
already-non-auto device. -/
def accelExitFirst : Except Unit Bool × CfgState DevTrace :=
  Accel.exitAutoMode (regDev tblZero) 3 true cfg0

/-- C9: `exit_auto` is idempotent on a device already out of auto mode
(every register read returns a well-formed 4-byte reply with the auto
bits clear and flash backup succeeds): both runs succeed, and the
second run accumulates no warnings — its controller result carries
`warning = None`.  This holds for the IMU and the accelerometer
configurators. -/
theorem exitAuto_idempotent :
    imuExitFirst.1 = Except.ok true ∧
    (Imu.exitAutoMode (regDev tblZero) 3 true imuExitFirst.2).1 = Except.ok true ∧
    (Imu.exitAutoMode (regDev tblZero) 3 true imuExitFirst.2).2.warnings = [] ∧
    (imuControllerExitAuto (regDev tblZero) 3 true imuExitFirst.2).1 =
      Except.ok ⟨true, "Auto mode disabled successfully.", false, Option.none⟩ ∧
    accelExitFirst.1 = Except.ok true ∧
    (Accel.exitAutoMode (regDev tblZero) 3 true accelExitFirst.2).1 = Except.ok true ∧
    (Accel.exitAutoMode (regDev tblZero) 3 true accelExitFirst.2).2.warnings = [] :=
  ⟨rfl, rfl, rfl, rfl, rfl, rfl, rfl⟩

/-- Success test on an identity-read outcome. -/
def detectOk (r : Except Unit (Option Identity)) : Bool :=
  match r with
  | Except.ok (Option.some _) => true
  | _ => false

/-- C10 counterexample: on a device whose very first product-id word
read fails once (and would succeed on a retry — the accelerometer
configurator does succeed on the same device), the IMU
`detect_identity` does not retry and declares the whole identity read
a failure. -/
theorem imu_detect_no_retry_on_first_word :
    (Imu.detectIdentity (failDev 0x6A 1 tblZero) 3 cfgF).1 = Except.ok Option.none ∧
    detectOk (Accel.detectIdentity (failDev 0x6A 1 tblZero) cfgF).1 = true :=
  ⟨rfl, rfl⟩

/-- C10 amended: the one-retry policy holds for every word in the
accelerometer `detect_identity` (first words of each group included,
and a second consecutive failure escalates).  In the IMU
`detect_identity` the retry applies only to words after the first of
each group: a single transient failure of the first product-id word or
the first serial word fails the identity read, while the same failure
on a later word is retried and recovered. -/
theorem detect_retry_policy :
    detectOk (Accel.detectIdentity (failDev 0x6A 1 tblZero) cfgF).1 = true ∧
    detectOk (Accel.detectIdentity (failDev 0x74 1 tblZero) cfgF).1 = true ∧
    detectOk (Accel.detectIdentity (failDev 0x6C 1 tblZero) cfgF).1 = true ∧
    (Accel.detectIdentity (failDev 0x6A 2 tblZero) cfgF).1 = Except.ok Option.none ∧
    (Accel.detectIdentity (failDev 0x6C 2 tblZero) cfgF).1 = Except.ok Option.none ∧
    (Imu.detectIdentity (failDev 0x6A 1 tblZero) 3 cfgF).1 = Except.ok Option.none ∧
    (Imu.detectIdentity (failDev 0x74 1 tblZero) 3 cfgF).1 = Except.ok Option.none ∧
    detectOk (Imu.detectIdentity (failDev 0x6C 1 tblZero) 3 cfgF).1 = true ∧
    detectOk (Imu.detectIdentity (failDev 0x76 1 tblZero) 3 cfgF).1 = true ∧
    (Imu.detectIdentity (failDev 0x6C 2 tblZero) 3 cfgF).1 = Except.ok Option.none :=
  ⟨rfl, rfl, rfl, rfl, rfl, rfl, rfl, rfl, rfl, rfl⟩

/-- C1 helper: against the `tblBad` device (FLASH_BU_ERR set in
DIAG_STAT) the accelerometer `flash_backup` reports failure from any
state and for any poll budget. -/
theorem accel_flashBackup_tblBad_fails (fuel : Nat) (s : CfgState DevTrace) :
    (Accel.flashBackup (regDev tblBad) fuel s).1 = Except.ok false := by
  cases fuel with
  | zero => rfl
  | succ n => rfl

/-- C1 counterexample: on a device whose flash backup fails (the
FLASH_BU_ERR diagnostic bit reads 1, so `flash_backup()` returns
`False`), the IMU `configure` still reports success — it only records
a warning — and the controller result is a success carrying
`requires_restart = true`. -/
theorem imu_configure_succeeds_despite_backup_failure :
    (Imu.flashBackup (regDev tblBad) 3 cfg0).1 = Except.ok false ∧
    (Imu.configure (regDev tblBad) 3 125 Option.none cfg0).1 = Except.ok true ∧
    (Imu.configure (regDev tblBad) 3 125 Option.none cfg0).2.warnings =
      ["Flash backup failed during configuration. Auto Start is enabled for this session, but the setting may not persist after power cycle."] ∧
    (imuControllerConfigure (regDev tblBad) 3 125 Option.none cfg0).1 =
      Except.ok ⟨true, "Configuration completed successfully.", true,
        Option.some "Flash backup failed during configuration. Auto Start is enabled for this session, but the setting may not persist after power cycle."⟩ :=
  ⟨rfl, rfl, rfl, rfl⟩

/-- C1 amended: against a device whose flash backup always reports
failure, the accelerometer `configure` fails for every sampling rate
and every poll budget, while the IMU `configure` downgrades the same
failure to a warning and still reports success. -/
theorem configure_on_flash_backup_failure (fuel rate : Nat) (s : CfgState DevTrace) :
    (Accel.flashBackup (regDev tblBad) fuel s).1 = Except.ok false ∧
    (Accel.configure (regDev tblBad) fuel rate s).1 = Except.ok false ∧
    (Imu.configure (regDev tblBad) 3 125 Option.none cfg0).1 = Except.ok true := by
  refine ⟨accel_flashBackup_tblBad_fails fuel s, ?_, rfl⟩
  by_cases h1 : rate = 100
  · subst h1; cases fuel with | zero => rfl | succ n => rfl
  by_cases h2 : rate = 200
  · subst h2; cases fuel with | zero => rfl | succ n => rfl
  by_cases h3 : rate = 500
  · subst h3; cases fuel with | zero => rfl | succ n => rfl
  by_cases h4 : rate = 1000
  · subst h4; cases fuel with | zero => rfl | succ n => rfl
  have hnone : Accel.spsToSmplCtrlH rate = Option.none := by
    simp [Accel.spsToSmplCtrlH, h1, h2, h3, h4]
  simp [Accel.configure, tryCatch', Accel.resetSensor, writeCommands, sendCommands,
    regDev, procFrames, Accel.setFixedConfiguration, Accel.setOutputRate, hnone,
    Bind.bind, pure, Pure.pure]

/-- C2 counterexample: with UART_CTRL reading `0x0007` (the two auto
bits set and bit 2 set), the IMU `exit_auto_mode` does not perform a
read-modify-write: the only UART_CTRL write is the fixed byte `0x00`
(clobbering bit 2 instead of preserving it as `0x04`), and the
operation still reports success although the register re-reads with
the two auto bits set — no hard failure. -/
theorem imu_exitAuto_no_rmw_no_verify :
    (Imu.exitAutoMode (regDev (tblUart 0x0007)) 3 false cfg0).1 = Except.ok true ∧
    (List.filter (fun p => p.1 = 0x88)
        (Imu.exitAutoMode (regDev (tblUart 0x0007)) 3 false cfg0).2.dev.writes) =
      [(0x88, 0x00)] :=
  ⟨rfl, rfl⟩

/-- C2 amended: the read-modify-write with verification holds of the
accelerometer `exit_auto_mode` — for every starting UART_CTRL value
`v`, the only UART_CTRL low-byte writes are `reset_sensor`'s `0x00`
followed by the read-back value with exactly bits 1:0 cleared
(`(v &&& 0xFF) &&& 0xFC`), the high (baud-rate) byte is never written,
and the operation fails hard exactly when the re-read still shows one
of the two bits set.  The IMU `exit_auto_mode` instead writes the
fixed byte `0x00` without reading it first and performs no such
verification. -/
theorem accel_exitAuto_read_modify_write_verify (v : Nat) :
    (List.filter (fun p => p.1 = 0x88)
        (Accel.exitAutoMode (regDev (tblUart v)) 3 false cfg0).2.dev.writes) =
      [(0x88, 0x00), (0x88, (v &&& 0xFF) &&& 0xFC)] ∧
    (List.filter (fun p => p.1 = 0x89)
        (Accel.exitAutoMode (regDev (tblUart v)) 3 false cfg0).2.dev.writes) = [] ∧
    ((Accel.exitAutoMode (regDev (tblUart v)) 3 false cfg0).1 = Except.ok false ↔
      v &&& 0x03 ≠ 0) := by
  have key : (v &&& 0xFF) &&& 0x03 = v &&& 0x03 := by rw [Nat.and_assoc]; rfl
  by_cases hv : v &&& 0x03 = 0 <;>
    refine ⟨?_, ?_, ?_⟩ <;>
    simp [Accel.exitAutoMode, tryCatch', Accel.resetSensor, writeCommands,
      sendCommands, regDev, procFrames, Accel.flashBackup, Accel.flashPoll,
      tblUart, readReply, negIdx, wFrame, rFrame, Bind.bind, pure, Pure.pure, cfg0, key, hv]

/-- A connected session state: known port, open Link, drain running. -/
def stConn : SessionState :=
  ⟨Option.some "COM3", 460800, Option.some ⟨"COM3", 460800, true⟩, true⟩

/-- A disconnected session state that remembers its previous port. -/
def stClosed : SessionState := ⟨Option.some "COM3", 460800, Option.none, false⟩

/-- A session state that has never been connected. -/
def stNoPort : SessionState := ⟨Option.none, 460800, Option.none, false⟩

/-- C4: for every operation outcome — normal return or exception —
`run` on a connected session stops the drain loop before flushing and
executing the operation, and restarts it before completing: the event
trace is exactly stop, flush, execute, start on both exit paths, the
drain loop is alive again afterwards, and the operation's outcome is
propagated. -/
theorem run_drain_discipline (α : Type) (opResult : Except Unit α) (openOk : Bool)
    (st : SessionState) (h1 : commOpen st = true) (h2 : st.drainAlive = true) :
    (runSession openOk opResult st).2.2 =
      [SEvent.drainStop, SEvent.flushBuf, SEvent.execOp, SEvent.drainStart] ∧
    (runSession openOk opResult st).2.1.drainAlive = true ∧
    (runSession openOk opResult st).1 =
      (match opResult with
       | Except.ok a => Except.ok a
       | Except.error _ => Except.error SErr.opFailed) := by
  obtain ⟨p, b, c, d⟩ := st
  cases c with
  | none => simp [commOpen] at h1
  | some link =>
    simp only [commOpen] at h1
    subst h2
    cases opResult <;>
      simp [runSession, commOpen, stopDrainLocked, startDrainLocked, h1]

/-- Witness for C4: the exceptional exit path on a concrete connected
session still restarts the drain loop. -/
theorem run_drain_discipline_witness :
    (runSession true (Except.error () : Except Unit Bool) stConn).2.2 =
      [SEvent.drainStop, SEvent.flushBuf, SEvent.execOp, SEvent.drainStart] ∧
    (runSession true (Except.error () : Except Unit Bool) stConn).2.1.drainAlive = true ∧
    (runSession true (Except.error () : Except Unit Bool) stConn).1 =
      Except.error SErr.opFailed :=
  run_drain_discipline Bool (Except.error ()) true stConn rfl rfl

/-- C7: invoking `run` while the connection is closed signals the
not-connected error without executing the operation when no port was
ever connected; with a previously known port it recreates and opens a
Link to that port and baud (the reconnect events precede the
operation) and then executes the operation normally. -/
theorem run_reconnects_when_closed (α : Type) (opResult : Except Unit α)
    (st : SessionState) (h : commOpen st = false) :
    (st.port = Option.none →
      runSession true opResult st = (Except.error SErr.notConnected, st, [])) ∧
    (∀ p, st.port = Option.some p → st.drainAlive = false →
      (runSession true opResult st).2.1.comm = Option.some ⟨p, st.baud, true⟩ ∧
      (runSession true opResult st).2.2 =
        [SEvent.openLink, SEvent.drainStart, SEvent.drainStop, SEvent.flushBuf,
         SEvent.execOp, SEvent.drainStart] ∧
      (runSession true opResult st).1 =
        (match opResult with
         | Except.ok a => Except.ok a
         | Except.error _ => Except.error SErr.opFailed)) := by
  obtain ⟨po, b, c, d⟩ := st
  simp only [commOpen] at h
  constructor
  · intro hp
    simp only at hp
    subst hp
    cases opResult <;> simp [runSession, commOpen, h]
  · intro p hp hd
    simp only at hp hd
    subst hp; subst hd
    cases opResult <;>
      simp [runSession, h, startDrainLocked, stopDrainLocked, commOpen]

/-- Witness for C7: a never-connected session rejects `run`; a closed
session with a known port reconnects to that port and baud and
executes the operation. -/
theorem run_reconnects_when_closed_witness :
    runSession true (Except.ok true : Except Unit Bool) stNoPort =
      (Except.error SErr.notConnected, stNoPort, []) ∧
    (runSession true (Except.ok true : Except Unit Bool) stClosed).2.1.comm =
      Option.some ⟨"COM3", 460800, true⟩ ∧
    (runSession true (Except.ok true : Except Unit Bool) stClosed).1 = Except.ok true :=
  ⟨(run_reconnects_when_closed Bool (Except.ok true) stNoPort rfl).1 rfl,
   ((run_reconnects_when_closed Bool (Except.ok true) stClosed rfl).2 "COM3" rfl rfl).1,
   ((run_reconnects_when_closed Bool (Except.ok true) stClosed rfl).2 "COM3" rfl rfl).2.2⟩

/-- C8: a `connect` call targeting the port and baud of the currently
open Link returns immediately — no event at all, so the transport's
`open` is not called and the Link object is kept; a `connect` call
targeting a different port or baud closes the existing Link (stopping
its drain loop) before opening the new one. -/
theorem connect_idempotent (dB : Nat) (p q : String) (b b2 : Option Nat)
    (st : SessionState) (openOk : Bool) (h1 : commOpen st = true) :
    (st.port = Option.some p → st.baud = targetBaud dB b →
      connectSession openOk dB st p b = (Except.ok (), st, [])) ∧
    (st.drainAlive = true → ¬(st.port = Option.some q ∧ st.baud = targetBaud dB b2) →
      (connectSession true dB st q b2).2.2 =
        [SEvent.drainStop, SEvent.closeLink, SEvent.openLink, SEvent.drainStart]) := by
  obtain ⟨po, bd, c, d⟩ := st
  cases c with
  | none => simp [commOpen] at h1
  | some link =>
    simp only [commOpen] at h1
    constructor
    · intro hp hb
      simp only at hp hb
      subst hp; subst hb
      simp [connectSession, commOpen, h1]
    · intro hd hne
      simp only at hd
      subst hd
      simp only at hne
      simp [connectSession, commOpen, h1, closeLocked, stopDrainLocked,
        startDrainLocked, hne]

/-- Witness for C8: reconnecting `stConn` to the same port and baud is
a no-op; connecting to a different port closes before opening. -/
theorem connect_idempotent_witness :
    connectSession true 460800 stConn "COM3" (Option.some 460800) =
      (Except.ok (), stConn, []) ∧
    (connectSession true 460800 stConn "COM4" (Option.some 460800)).2.2 =
      [SEvent.drainStop, SEvent.closeLink, SEvent.openLink, SEvent.drainStart] :=
  ⟨(connect_idempotent 460800 "COM3" "COM4" (Option.some 460800) (Option.some 460800)
      stConn true rfl).1 rfl rfl,
   (connect_idempotent 460800 "COM3" "COM4" (Option.some 460800) (Option.some 460800)
      stConn true rfl).2 rfl (by decide)⟩
